import Mathlib

/-!
Shallow embedding of the server-checker monitor (src/check.ts).

The program periodically probes a configured list of network endpoints
(an ICMP-style ping for latency plus a TCP or UDP port check), classifies
each endpoint as Good, Degraded or Down, inserts one row per endpoint into
a sqlite table, and publishes a two-embed Discord message that is created
once and then updated in place.

Network, storage and HTTP effects are external to the process; they are
modelled as explicit outcome values (oracles) passed to the embedded
functions, so that every control-flow path of the source becomes a total
Lean function of those outcomes. Latencies are rationals, standing for the
JavaScript numbers returned by the ping library; only comparisons are
performed on them, so the choice of an exact ordered field is faithful.
-/

namespace ServerChecker

/-- Protocol of a configured endpoint, from the config type
`protocol: 'tcp' | 'udp'` (src/check.ts line 20). -/
inductive Protocol
  | tcp
  | udp
  deriving DecidableEq, Repr

/-- One configured endpoint, from `interface ServerConfig` (lines 16-21). -/
structure ServerConfig where
  name : String
  ip : String
  port : Nat
  protocol : Protocol
  deriving DecidableEq, Repr

/-- Latency in milliseconds, the JavaScript number `res.time`. -/
abbrev Latency := ℚ

/-- Outcome of one call to the external ping library inside `pingServer`
(lines 53-60): either the library throws, or it returns a probe result with
an `alive` flag and a `time` field that may or may not be a number
(`none` stands for a non-numeric `res.time`). -/
inductive PingOutcome
  | throws
  | result (alive : Bool) (time : Option Latency)
  deriving DecidableEq, Repr

/-- `pingServer` (lines 53-60): returns `res.alive ? (typeof res.time ===
'number' ? res.time : null) : null`, and `null` when the library throws. -/
def pingServer : PingOutcome → Option Latency
  | PingOutcome.throws => none
  | PingOutcome.result alive time => if alive then time else none

/-- The fixed TCP timeout passed to `socket.setTimeout` (line 65). -/
def tcpTimeoutMs : Nat := 3000

/-- Which of the three socket events fires first inside `checkTCPPort`
(lines 62-76): `connect`, `timeout` (after `tcpTimeoutMs`), or `error`. -/
inductive TCPOutcome
  | connect
  | timeout
  | socketError
  deriving DecidableEq, Repr

/-- `checkTCPPort` (lines 62-76): resolves `true` on the connect event and
`false` on the timeout or error event; it never rejects. -/
def checkTCPPort : TCPOutcome → Bool
  | TCPOutcome.connect => true
  | TCPOutcome.timeout => false
  | TCPOutcome.socketError => false

/-- Outcome of the UDP check inside `checkUDPPort` (lines 78-91): either the
socket errors, or the send callback fires with an error flag. -/
inductive UDPOutcome
  | socketError
  | sendCallback (err : Bool)
  deriving DecidableEq, Repr

/-- `checkUDPPort` (lines 78-91): resolves `false` on a socket error and
`!err` from the send callback; it never rejects. -/
def checkUDPPort : UDPOutcome → Bool
  | UDPOutcome.socketError => false
  | UDPOutcome.sendCallback err => !err

/-- The external-world outcomes one call to `checkServerStatus` can observe:
one ping outcome and one outcome for each kind of port check (only the one
matching the protocol of the endpoint is consulted). -/
structure ProbeEnv where
  ping : PingOutcome
  tcp : TCPOutcome
  udp : UDPOutcome
  deriving DecidableEq, Repr

/-- The `isPortOpen` value of `checkServerStatus` (lines 95-97): the TCP
check for a tcp endpoint, the UDP check otherwise. -/
def portOpen (server : ServerConfig) (env : ProbeEnv) : Bool :=
  match server.protocol with
  | Protocol.tcp => checkTCPPort env.tcp
  | Protocol.udp => checkUDPPort env.udp

/-- The per-endpoint result object returned by `checkServerStatus`
(line 93): `{ name, status, ping }` with the status as its display string. -/
structure ServerStatus where
  name : String
  status : String
  ping : Option Latency
  deriving DecidableEq, Repr

/-- The classification block of `checkServerStatus` (lines 99-108):
`status` starts as Down and is upgraded only when `pingTime !== null &&
isPortOpen`, in which case the thresholds 100 and 200 apply, with
latencies of 200 and above falling back to Down. -/
def classify (pingTime : Option Latency) (isPortOpen : Bool) : String :=
  match pingTime, isPortOpen with
  | some t, true =>
    if t < 100 then "🟢 Good"
    else if t < 200 then "🟡 Degraded"
    else "🔴 Down"
  | _, _ => "🔴 Down"

/-- `checkServerStatus` (lines 93-111): awaits the ping, then the port
check, classifies, and returns the name, the status string and the ping
value (which is returned unchanged whatever the status is). -/
def checkServerStatus (server : ServerConfig) (env : ProbeEnv) : ServerStatus :=
  let pingTime := pingServer env.ping
  let isPortOpen := portOpen server env
  { name := server.name, status := classify pingTime isPortOpen, ping := pingTime }

/-- Events of one `checkServerStatus` call, used to state in which order its
two sub-checks run. -/
inductive ProbeEvent
  | pingStart
  | pingEnd
  | portStart (p : Protocol)
  | portEnd (p : Protocol)
  deriving DecidableEq, Repr

/-- The event order of `checkServerStatus` (lines 94-97): the source first
`await`s `pingServer`, and only then `await`s the port check, so the port
check starts only after the ping has fully settled. The order is the same
for every input; only which port check runs depends on the protocol. -/
def checkServerStatusTrace (server : ServerConfig) : List ProbeEvent :=
  [ProbeEvent.pingStart, ProbeEvent.pingEnd,
   ProbeEvent.portStart server.protocol, ProbeEvent.portEnd server.protocol]

/-- Single-character membership in a string, modelling the JavaScript
`String.prototype.includes` calls of line 116 and line 118, whose needles
are the single characters red circle and yellow circle. -/
def includesChar (s : String) (c : Char) : Bool := s.data.contains c

/-- The overall status of `sendDiscordNotification` (lines 116-120): red
if some status string contains the red circle, else yellow if some status
string contains the yellow circle, else green. -/
def overallStatus (statuses : List ServerStatus) : String :=
  if statuses.any fun st => includesChar st.status '🔴' then "🔴 Critical"
  else if statuses.any fun st => includesChar st.status '🟡' then "🟡 Warning"
  else "🟢 Operational"

/-- The ping part of a detail field value (line 130):
the number followed by ms, or the string N/A when the ping is null. -/
def pingDisplay (p : Option Latency) : String :=
  match p with
  | some q => toString q ++ " ms"
  | none => "N/A"

/-- One entry of the details embed (lines 128-132). -/
structure EmbedField where
  name : String
  value : String
  inline : Bool
  deriving DecidableEq, Repr

/-- `serverFields` (lines 128-132): one inline field per endpoint, whose
value is the status string followed by the ping display. -/
def serverFields (statuses : List ServerStatus) : List EmbedField :=
  statuses.map fun st =>
    { name := st.name, value := st.status ++ " | Ping: " ++ pingDisplay st.ping,
      inline := true }

/-- The Discord API call attempted by one `sendDiscordNotification` run:
a message create (POST, lines 153-158) or an update of an existing message
(PATCH with the stored id, lines 146-151). -/
inductive ApiCall
  | create
  | update (id : String)
  deriving DecidableEq, Repr

/-- Outcome of the one axios call inside `sendDiscordNotification`: the
HTTP call succeeds (carrying `response.data.id`, which only the create
path reads), or axios throws and control reaches the catch block. -/
inductive PublishOutcome
  | ok (respId : String)
  | apiError
  deriving DecidableEq, Repr

/-- What one `sendDiscordNotification` run did: the new value of the
module-level `discordMessageId`, which API call was attempted, and whether
the catch block logged an error. -/
structure PublishResult where
  messageId : Option String
  call : ApiCall
  errorLogged : Bool
  deriving DecidableEq, Repr

/-- Initial value of the module-level `discordMessageId` (line 14):
`null` at process startup. -/
def discordMessageIdInit : Option String := none

/-- The state transition of `sendDiscordNotification` (lines 144-163): with
a stored id, PATCH that message (the id is never reassigned on this path);
with no stored id, POST a new message and store `response.data.id` on
success. A thrown error is caught and logged, and leaves the stored id
exactly as it was. -/
def sendDiscordNotification (messageId : Option String) (outcome : PublishOutcome) :
    PublishResult :=
  match messageId with
  | some id =>
    match outcome with
    | PublishOutcome.ok _ =>
      { messageId := some id, call := ApiCall.update id, errorLogged := false }
    | PublishOutcome.apiError =>
      { messageId := some id, call := ApiCall.update id, errorLogged := true }
  | none =>
    match outcome with
    | PublishOutcome.ok respId =>
      { messageId := some respId, call := ApiCall.create, errorLogged := false }
    | PublishOutcome.apiError =>
      { messageId := none, call := ApiCall.create, errorLogged := true }

/-- A sequence of `sendDiscordNotification` calls threading the stored id,
one outcome per call; returns the final stored id and the API calls
attempted, in order. -/
def runPublishes (messageId : Option String) (outcomes : List PublishOutcome) :
    Option String × List ApiCall :=
  match outcomes with
  | [] => (messageId, [])
  | o :: rest =>
    let r := sendDiscordNotification messageId o
    let next := runPublishes r.messageId rest
    (next.1, r.call :: next.2)

/-- One row of the `server_status` insert (lines 171-175). The ip, port and
protocol come from `servers.find(s => s.name === status.name)?.`, hence the
options: the optional chaining yields undefined when the find misses. -/
structure StatusRecord where
  name : String
  ip : Option String
  port : Option Nat
  protocol : Option Protocol
  status : String
  ping : Option Latency
  deriving DecidableEq, Repr

/-- The insert row built for one status inside `monitorServers`
(lines 172-174): name, status and ping from the status object, and ip,
port and protocol from the first configured server with the same name. -/
def recordFor (servers : List ServerConfig) (st : ServerStatus) : StatusRecord :=
  let found := servers.find? fun s => s.name == st.name
  { name := st.name, ip := found.map fun s => s.ip,
    port := found.map fun s => s.port, protocol := found.map fun s => s.protocol,
    status := st.status, ping := st.ping }

/-- The external-world outcomes one cycle of `monitorServers` can observe:
the probe outcomes per endpoint, whether each insert succeeds, and the
outcome of the one Discord call. -/
structure CycleEnv where
  probe : ServerConfig → ProbeEnv
  insertOk : StatusRecord → Bool
  publish : PublishOutcome

/-- Observable outcome of one `monitorServers` cycle: the insert attempts
(all of them are started by `Promise.all`), the rows actually written (the
attempts whose insert succeeded), how many times `sendDiscordNotification`
was invoked, and whether the cycle rejected before completing. -/
structure CycleResult where
  attempted : List StatusRecord
  records : List StatusRecord
  publishCalls : Nat
  aborted : Bool
  deriving Repr

/-- `monitorServers` (lines 167-178): probe and classify every configured
server (the probes themselves never reject), build one insert per status,
and run all inserts under `Promise.all`. Every insert is started eagerly,
so each one is attempted and the successful ones complete even when
another fails; but when any insert rejects, the awaited `Promise.all`
rejects, `monitorServers` rejects with it — there is no try/catch — and
`sendDiscordNotification` is never reached in that cycle, leaving the
stored message id untouched. When every insert succeeds, the notification
runs exactly once. -/
def monitorServers (servers : List ServerConfig) (env : CycleEnv)
    (messageId : Option String) : CycleResult × Option String :=
  let statuses := servers.map fun s => checkServerStatus s (env.probe s)
  let attempted := statuses.map (recordFor servers)
  if attempted.all env.insertOk then
    let pub := sendDiscordNotification messageId env.publish
    ({ attempted := attempted, records := attempted.filter env.insertOk,
       publishCalls := 1, aborted := false }, pub.messageId)
  else
    ({ attempted := attempted, records := attempted.filter env.insertOk,
       publishCalls := 0, aborted := true }, messageId)

/-- Events of one `monitorServers` cycle, used to state in which order the
probes, the inserts and the single publish run. Indices refer to positions
in the configured server list. -/
inductive CycleEvent
  | probeStart (i : Nat)
  | probeEnd (i : Nat)
  | insertStart (i : Nat)
  | insertEnd (i : Nat)
  | publishStart
  | publishEnd
  deriving DecidableEq, Repr

/-- The event order of `monitorServers` (lines 167-178). `Promise.all`
starts every probe before any is awaited, and likewise every insert, so
within each phase all starts precede all ends; the completion order within
a phase is schedule-dependent and is fixed here as index order, which no
theorem below depends on. What the `await`s force — and what the theorems
use — is the phase ordering: all probe events precede all insert events,
and the publish events, present only when every insert succeeds, come
after every insert event. -/
def cycleTrace (servers : List ServerConfig) (env : CycleEnv) : List CycleEvent :=
  let n := servers.length
  let statuses := servers.map fun s => checkServerStatus s (env.probe s)
  let attempted := statuses.map (recordFor servers)
  ((List.range n).map CycleEvent.probeStart ++ (List.range n).map CycleEvent.probeEnd) ++
    (((List.range n).map CycleEvent.insertStart ++
        (List.range n).map CycleEvent.insertEnd) ++
      (if attempted.all env.insertOk then
        [CycleEvent.publishStart, CycleEvent.publishEnd]
      else []))

/-- The monitoring loop of `startMonitoring` (lines 180-186): `setInterval`
fires unconditionally every period, so cycle n runs whatever earlier
cycles did; the stored message id threads from cycle to cycle, starting
from `discordMessageIdInit`. Returns the results of the first n cycles and
the final stored id. -/
def runCycles (servers : List ServerConfig) (envs : Nat → CycleEnv) :
    Nat → List CycleResult × Option String
  | 0 => ([], discordMessageIdInit)
  | n + 1 =>
    let prev := runCycles servers envs n
    let step := monitorServers servers (envs n) prev.2
    (prev.1 ++ [step.1], step.2)

/-- Strict precedence of two events in a trace: some occurrence of `a` is
followed, strictly later, by an occurrence of `b`. -/
def occursBefore [DecidableEq α] : List α → α → α → Bool
  | [], _, _ => false
  | x :: xs, a, b => (decide (x = a) && decide (b ∈ xs)) || occursBefore xs a b

/-! Concrete inputs used by witnesses and counterexamples. -/

/-- A concrete TCP endpoint. -/
def demoTcpServer : ServerConfig :=
  { name := "alpha", ip := "10.0.0.1", port := 80, protocol := Protocol.tcp }

/-- A concrete UDP endpoint. -/
def demoUdpServer : ServerConfig :=
  { name := "beta", ip := "10.0.0.2", port := 27015, protocol := Protocol.udp }

/-- A concrete two-endpoint configuration. -/
def demoServers : List ServerConfig := [demoTcpServer, demoUdpServer]

/-- Probe outcomes where the first endpoint suffers a full probe failure
(the ping library throws and the socket errors) and the second probes
cleanly at 50 ms. -/
def demoProbe : ServerConfig → ProbeEnv := fun s =>
  if s.name == "alpha" then
    { ping := PingOutcome.throws, tcp := TCPOutcome.socketError,
      udp := UDPOutcome.socketError }
  else
    { ping := PingOutcome.result true (some 50), tcp := TCPOutcome.connect,
      udp := UDPOutcome.sendCallback false }

/-- A cycle in which every insert succeeds and the Discord call succeeds. -/
def demoGoodEnv : CycleEnv :=
  { probe := demoProbe, insertOk := fun _ => true,
    publish := PublishOutcome.ok ("m1") }

/-- A cycle in which the insert for the first endpoint fails and every
other insert succeeds. -/
def demoBadStorageEnv : CycleEnv :=
  { probe := demoProbe, insertOk := fun r => !(r.name == "alpha"),
    publish := PublishOutcome.ok ("m1") }

/-- A probe environment where the ping succeeds at 50 ms but the TCP check
times out and the UDP socket errors. -/
def probeEnvPingOnly : ProbeEnv :=
  { ping := PingOutcome.result true (some 50), tcp := TCPOutcome.timeout,
    udp := UDPOutcome.socketError }

/-- A mixed status list: one Good endpoint and one Degraded endpoint. -/
def demoStatusList : List ServerStatus :=
  [{ name := "alpha", status := "🟢 Good", ping := some 50 },
   { name := "beta", status := "🟡 Degraded", ping := some 150 }]

/-! Helper lemmas. -/

/-- The classifier only ever produces the three display labels. -/
theorem classify_mem_labels (L : Option Latency) (R : Bool) :
    classify L R = "🟢 Good" ∨ classify L R = "🟡 Degraded" ∨
      classify L R = "🔴 Down" := by
  cases L with
  | none => right; right; rfl
  | some t =>
    cases R with
    | false => right; right; rfl
    | true =>
      by_cases h1 : t < 100
      · left; simp [classify, h1]
      · by_cases h2 : t < 200
        · right; left; simp [classify, h1, h2]
        · right; right; simp [classify, h1, h2]

/-- Among the three labels, containing the red circle characterizes the
Down label. -/
theorem includesChar_red_iff (s : String)
    (h : s = "🟢 Good" ∨ s = "🟡 Degraded" ∨ s = "🔴 Down") :
    includesChar s '🔴' = true ↔ s = "🔴 Down" := by
  rcases h with h | h | h <;> subst h <;> simp_all <;> decide

/-- Among the three labels, containing the yellow circle characterizes the
Degraded label. -/
theorem includesChar_yellow_iff (s : String)
    (h : s = "🟢 Good" ∨ s = "🟡 Degraded" ∨ s = "🔴 Down") :
    includesChar s '🟡' = true ↔ s = "🟡 Degraded" := by
  rcases h with h | h | h <;> subst h <;> simp_all <;> decide

/-- Once an id is stored, a run of error-free publishes leaves the id
unchanged and updates it on every call. -/
theorem runPublishes_stored (id : String) (outcomes : List PublishOutcome)
    (h : ∀ o ∈ outcomes, o ≠ PublishOutcome.apiError) :
    runPublishes (some id) outcomes =
      (some id, outcomes.map fun _ => ApiCall.update id) := by
  induction outcomes with
  | nil => rfl
  | cons o rest ih =>
    have ho := h o (List.mem_cons_self o rest)
    have hrest : ∀ x ∈ rest, x ≠ PublishOutcome.apiError :=
      fun x hx => h x (List.mem_cons_of_mem o hx)
    cases o with
    | ok respId => simp [runPublishes, sendDiscordNotification, ih hrest]
    | apiError => exact absurd rfl ho

/-- If a occurs in the front list and b in the back list, then a occurs
strictly before b in the concatenation. -/
theorem occursBefore_of_mem_append [DecidableEq α] {xs ys : List α} {a b : α}
    (ha : a ∈ xs) (hb : b ∈ ys) : occursBefore (xs ++ ys) a b = true := by
  induction xs with
  | nil => cases ha
  | cons x t ih =>
    rcases List.mem_cons.mp ha with h | h
    · subst h
      have hb2 : b ∈ t ++ ys := List.mem_append.mpr (Or.inr hb)
      simp [occursBefore, hb2]
    · simp [occursBefore, ih h]

/-- Shape of a cycle in which every insert succeeds: every row is written,
the notification runs once, and the threaded id is whatever the
notification leaves stored. -/
theorem monitorServers_all_ok (servers : List ServerConfig) (env : CycleEnv)
    (messageId : Option String)
    (h : ((servers.map fun s => checkServerStatus s (env.probe s)).map
      (recordFor servers)).all env.insertOk = true) :
    monitorServers servers env messageId =
      ({ attempted := (servers.map fun s => checkServerStatus s (env.probe s)).map
          (recordFor servers),
         records := (servers.map fun s => checkServerStatus s (env.probe s)).map
          (recordFor servers),
         publishCalls := 1, aborted := false },
       (sendDiscordNotification messageId env.publish).messageId) := by
  unfold monitorServers
  rw [if_pos h, List.filter_eq_self.mpr fun a ha => List.all_eq_true.mp h a ha]

/-- Shape of a cycle in which some insert fails: every insert is still
attempted and the successful rows are written, but the cycle rejects with
no publish attempt and an unchanged stored id. -/
theorem monitorServers_insert_failed (servers : List ServerConfig) (env : CycleEnv)
    (messageId : Option String)
    (h : ((servers.map fun s => checkServerStatus s (env.probe s)).map
      (recordFor servers)).all env.insertOk = false) :
    monitorServers servers env messageId =
      ({ attempted := (servers.map fun s => checkServerStatus s (env.probe s)).map
          (recordFor servers),
         records := ((servers.map fun s => checkServerStatus s (env.probe s)).map
          (recordFor servers)).filter env.insertOk,
         publishCalls := 0, aborted := true },
       messageId) := by
  unfold monitorServers
  rw [if_neg (by rw [h]; exact Bool.false_ne_true)]

/-- The classifier is Down whenever the latency is absent. -/
theorem classify_none (R : Bool) : classify none R = "🔴 Down" := by
  cases R <;> rfl

/-- Every scheduled cycle runs: the interval timer fires unconditionally,
so after n periods exactly n cycle results exist. -/
theorem runCycles_length (servers : List ServerConfig) (envs : Nat → CycleEnv)
    (n : Nat) : (runCycles servers envs n).1.length = n := by
  induction n with
  | zero => rfl
  | succ n ih => simp [runCycles, ih]

/-- In a list of shape A ++ ((S ++ E) ++ C), any element of S occurs
before any element of E. -/
theorem occursBefore_quad_mid [DecidableEq α] {A S E C : List α} {a b : α}
    (ha : a ∈ S) (hb : b ∈ E) :
    occursBefore (A ++ ((S ++ E) ++ C)) a b = true := by
  induction A with
  | nil =>
    show occursBefore ((S ++ E) ++ C) a b = true
    rw [List.append_assoc]
    exact occursBefore_of_mem_append ha (List.mem_append.mpr (Or.inl hb))
  | cons x t ih =>
    show ((decide (x = a) && decide (b ∈ t ++ ((S ++ E) ++ C))) ||
      occursBefore (t ++ ((S ++ E) ++ C)) a b) = true
    rw [ih, Bool.or_true]

/-- In a list of shape A ++ ((S ++ E) ++ C), any element of E occurs
before any element of C. -/
theorem occursBefore_quad_last [DecidableEq α] {A S E C : List α} {a b : α}
    (ha : a ∈ E) (hb : b ∈ C) :
    occursBefore (A ++ ((S ++ E) ++ C)) a b = true := by
  rw [← List.append_assoc]
  exact occursBefore_of_mem_append
    (List.mem_append.mpr (Or.inr (List.mem_append.mpr (Or.inr ha)))) hb

/-- When every insert succeeds the cycle trace ends with the two publish
events after all probe and insert events. -/
theorem cycleTrace_all_ok (servers : List ServerConfig) (env : CycleEnv)
    (h : ∀ r, env.insertOk r = true) :
    cycleTrace servers env =
      ((List.range servers.length).map CycleEvent.probeStart ++
        (List.range servers.length).map CycleEvent.probeEnd) ++
      (((List.range servers.length).map CycleEvent.insertStart ++
        (List.range servers.length).map CycleEvent.insertEnd) ++
        [CycleEvent.publishStart, CycleEvent.publishEnd]) := by
  simp only [cycleTrace]
  rw [if_pos (List.all_eq_true.mpr fun r _ => h r)]

/-! Claim theorems. -/

/-- Claim C1: inside checkServerStatus the status is classify applied to
the latency value and the port flag, and classify is Down when the flag is
false or the latency is absent, Good when the flag is true and the latency
is below 100, Degraded when the flag is true and the latency is at least
100 and below 200, and Down when the flag is true and the latency is at
least 200 (the reachable-but-slow endpoint is Down by design). -/
theorem classification_thresholds (L : Option Latency) (R : Bool) :
    (∀ s env, (checkServerStatus s env).status =
      classify (pingServer env.ping) (portOpen s env)) ∧
    ((R = false ∨ L = none) → classify L R = "🔴 Down") ∧
    (∀ t, L = some t → R = true → t < 100 → classify L R = "🟢 Good") ∧
    (∀ t, L = some t → R = true → 100 ≤ t → t < 200 →
      classify L R = "🟡 Degraded") ∧
    (∀ t, L = some t → R = true → 200 ≤ t → classify L R = "🔴 Down") := by
  refine ⟨fun s env => rfl, ?_, ?_, ?_, ?_⟩
  · rintro (rfl | rfl)
    · cases L <;> rfl
    · cases R <;> rfl
  · rintro t rfl rfl h
    simp only [classify]
    rw [if_pos h]
  · rintro t rfl rfl h1 h2
    simp only [classify]
    rw [if_neg (not_lt.mpr h1), if_pos h2]
  · rintro t rfl rfl h
    have h1 : ¬t < 100 := not_lt.mpr (le_trans (by norm_num) h)
    have h2 : ¬t < 200 := not_lt.mpr (le_trans (by norm_num) h)
    simp only [classify]
    rw [if_neg h1, if_neg h2]

/-- Witness for C1: a reachable endpoint at 150 ms is Degraded. -/
theorem classification_thresholds_witness :
    classify (some 150) true = "🟡 Degraded" :=
  (classification_thresholds (some 150) true).2.2.2.1 150 rfl rfl
    (by norm_num) (by norm_num)

/-- Claim C5: the probe never rejects to its caller; the ping failure
paths (library throw, endpoint not alive, non-numeric time) resolve to an
absent latency, the TCP timeout (after the fixed 3000 ms) and the TCP
connection error both resolve to false, as does a UDP socket error, and
every checkServerStatus call returns a well-formed result whose status is
one of the three labels. -/
theorem probe_never_rejects :
    pingServer PingOutcome.throws = none ∧
    (∀ t, pingServer (PingOutcome.result false t) = none) ∧
    pingServer (PingOutcome.result true none) = none ∧
    tcpTimeoutMs = 3000 ∧
    checkTCPPort TCPOutcome.timeout = false ∧
    checkTCPPort TCPOutcome.socketError = false ∧
    checkUDPPort UDPOutcome.socketError = false ∧
    (∀ s env, (checkServerStatus s env).name = s.name ∧
      (checkServerStatus s env).ping = pingServer env.ping ∧
      ((checkServerStatus s env).status = "🟢 Good" ∨
        (checkServerStatus s env).status = "🟡 Degraded" ∨
        (checkServerStatus s env).status = "🔴 Down")) := by
  refine ⟨rfl, fun t => rfl, rfl, rfl, rfl, rfl, rfl, fun s env => ⟨rfl, rfl, ?_⟩⟩
  exact classify_mem_labels (pingServer env.ping) (portOpen s env)

/-- Claim C10: when the latency probe succeeds but the port check fails,
the endpoint is Down yet the result, the stored record and the rendered
detail field all carry the numeric latency rather than N/A. -/
theorem down_still_reports_latency (s : ServerConfig) (env : ProbeEnv)
    (q : Latency) (hp : pingServer env.ping = some q)
    (hport : portOpen s env = false) :
    (checkServerStatus s env).status = "🔴 Down" ∧
    (checkServerStatus s env).ping = some q ∧
    (checkServerStatus s env).ping ≠ none ∧
    (∀ servers, (recordFor servers (checkServerStatus s env)).ping = some q) ∧
    pingDisplay (checkServerStatus s env).ping = toString q ++ " ms" ∧
    serverFields [checkServerStatus s env] =
      [{ name := s.name,
         value := "🔴 Down" ++ " | Ping: " ++ (toString q ++ " ms"),
         inline := true }] := by
  have hrepr : checkServerStatus s env =
      { name := s.name, status := "🔴 Down", ping := some q } := by
    simp only [checkServerStatus]
    rw [hp, hport]
    rfl
  refine ⟨by rw [hrepr], by rw [hrepr], by rw [hrepr]; simp,
    fun servers => by rw [hrepr]; rfl, by rw [hrepr]; rfl, by rw [hrepr]; rfl⟩

/-- Witness for C10: a TCP endpoint pinging at 50 ms whose TCP check
times out is Down with its 50 ms latency preserved everywhere. -/
theorem down_still_reports_latency_witness :
    (checkServerStatus demoTcpServer probeEnvPingOnly).status = "🔴 Down" ∧
    (checkServerStatus demoTcpServer probeEnvPingOnly).ping = some 50 ∧
    (checkServerStatus demoTcpServer probeEnvPingOnly).ping ≠ none ∧
    (∀ servers,
      (recordFor servers (checkServerStatus demoTcpServer probeEnvPingOnly)).ping =
        some 50) ∧
    pingDisplay (checkServerStatus demoTcpServer probeEnvPingOnly).ping =
      toString (50 : Latency) ++ " ms" ∧
    serverFields [checkServerStatus demoTcpServer probeEnvPingOnly] =
      [{ name := demoTcpServer.name,
         value := "🔴 Down" ++ " | Ping: " ++ (toString (50 : Latency) ++ " ms"),
         inline := true }] :=
  down_still_reports_latency demoTcpServer probeEnvPingOnly 50 rfl rfl

/-- Claim C3: with every publish succeeding, N sequential reporter calls
from the unset startup handle make exactly one create followed by N minus
one updates, each update targeting the id the create returned; the handle
is unset at startup, set by the first successful publish, and reused
unchanged for every later update. -/
theorem idempotent_reporting (id0 : String) (rest : List PublishOutcome)
    (h : ∀ o ∈ rest, o ≠ PublishOutcome.apiError) :
    discordMessageIdInit = none ∧
    runPublishes discordMessageIdInit (PublishOutcome.ok id0 :: rest) =
      (some id0, ApiCall.create :: rest.map fun _ => ApiCall.update id0) := by
  refine ⟨rfl, ?_⟩
  show runPublishes none (PublishOutcome.ok id0 :: rest) = _
  simp only [runPublishes, sendDiscordNotification]
  rw [runPublishes_stored id0 rest h]

/-- Witness for C3: three successful publishes make one create and two
updates of the created message. -/
theorem idempotent_reporting_witness :
    runPublishes discordMessageIdInit
      [PublishOutcome.ok ("m1"), PublishOutcome.ok ("m2"), PublishOutcome.ok ("m3")] =
      (some ("m1"),
        [ApiCall.create, ApiCall.update ("m1"), ApiCall.update ("m1")]) :=
  (idempotent_reporting ("m1")
    [PublishOutcome.ok ("m2"), PublishOutcome.ok ("m3")] (by decide)).2

/-- Claim C4: the overall status is worst-of with priority Down over
Degraded over Good: the red overall label when some endpoint is Down, else
the yellow one when some endpoint is Degraded, else the green one, for any
list of classifier-produced statuses. -/
theorem aggregation_worst_of (statuses : List ServerStatus)
    (h : ∀ st ∈ statuses, st.status = "🟢 Good" ∨ st.status = "🟡 Degraded" ∨
      st.status = "🔴 Down") :
    ((∃ st ∈ statuses, st.status = "🔴 Down") →
      overallStatus statuses = "🔴 Critical") ∧
    ((¬∃ st ∈ statuses, st.status = "🔴 Down") →
      (∃ st ∈ statuses, st.status = "🟡 Degraded") →
      overallStatus statuses = "🟡 Warning") ∧
    ((¬∃ st ∈ statuses, st.status = "🔴 Down") →
      (¬∃ st ∈ statuses, st.status = "🟡 Degraded") →
      overallStatus statuses = "🟢 Operational") := by
  have hred : (statuses.any fun st => includesChar st.status '🔴') = true ↔
      ∃ st ∈ statuses, st.status = "🔴 Down" := by
    rw [List.any_eq_true]
    constructor
    · rintro ⟨st, hm, hc⟩
      exact ⟨st, hm, (includesChar_red_iff st.status (h st hm)).mp hc⟩
    · rintro ⟨st, hm, he⟩
      exact ⟨st, hm, (includesChar_red_iff st.status (h st hm)).mpr he⟩
  have hyellow : (statuses.any fun st => includesChar st.status '🟡') = true ↔
      ∃ st ∈ statuses, st.status = "🟡 Degraded" := by
    rw [List.any_eq_true]
    constructor
    · rintro ⟨st, hm, hc⟩
      exact ⟨st, hm, (includesChar_yellow_iff st.status (h st hm)).mp hc⟩
    · rintro ⟨st, hm, he⟩
      exact ⟨st, hm, (includesChar_yellow_iff st.status (h st hm)).mpr he⟩
  refine ⟨?_, ?_, ?_⟩
  · intro hd
    unfold overallStatus
    rw [if_pos (hred.mpr hd)]
  · intro hnd hdeg
    have hr : ¬(statuses.any fun st => includesChar st.status '🔴') = true :=
      fun hc => hnd (hred.mp hc)
    unfold overallStatus
    rw [if_neg hr, if_pos (hyellow.mpr hdeg)]
  · intro hnd hndeg
    have hr : ¬(statuses.any fun st => includesChar st.status '🔴') = true :=
      fun hc => hnd (hred.mp hc)
    have hy : ¬(statuses.any fun st => includesChar st.status '🟡') = true :=
      fun hc => hndeg (hyellow.mp hc)
    unfold overallStatus
    rw [if_neg hr, if_neg hy]

/-- Witness for C4: one Good endpoint plus one Degraded endpoint aggregate
to the yellow overall label. -/
theorem aggregation_worst_of_witness :
    overallStatus demoStatusList = "🟡 Warning" := by
  have h := aggregation_worst_of demoStatusList (by decide)
  exact h.2.1 (by decide) (by decide)

/-- Claim C6: a publish failure is logged by the catch block, leaves the
stored handle exactly as it was — so the next cycle retries the update,
or the create when no handle exists yet — and does not abort the cycle: a
cycle whose inserts succeed but whose Discord call throws still completes
without rejecting, with its single publish attempt made and the threaded
handle unchanged. -/
theorem publish_failure_preserves_handle (mid : Option String)
    (servers : List ServerConfig) (env : CycleEnv) (messageId : Option String) :
    (sendDiscordNotification mid PublishOutcome.apiError).messageId = mid ∧
    (sendDiscordNotification mid PublishOutcome.apiError).errorLogged = true ∧
    (sendDiscordNotification mid PublishOutcome.apiError).call =
      (match mid with
       | some i => ApiCall.update i
       | none => ApiCall.create) ∧
    (monitorServers servers
        { env with insertOk := fun _ => true, publish := PublishOutcome.apiError }
        messageId).1.aborted = false ∧
    (monitorServers servers
        { env with insertOk := fun _ => true, publish := PublishOutcome.apiError }
        messageId).1.publishCalls = 1 ∧
    (monitorServers servers
        { env with insertOk := fun _ => true, publish := PublishOutcome.apiError }
        messageId).2 = messageId := by
  have hmon := monitorServers_all_ok servers
    { env with insertOk := fun _ => true, publish := PublishOutcome.apiError }
    messageId (by simp)
  refine ⟨by cases mid <;> rfl, by cases mid <;> rfl, by cases mid <;> rfl,
    by rw [hmon], by rw [hmon], by rw [hmon]; cases messageId <;> rfl⟩

/-- Claim C2: a cycle whose inserts succeed produces exactly one record
per configured endpoint — the record list is the endpoint list mapped
through probe, classify and row construction, index by index — and exactly
one (hence at most one) reporter invocation, whatever the probe outcomes;
an endpoint whose ping probe fails still gets its row, carrying its name
and the Down status, and the rows of the other endpoints are untouched. -/
theorem cycle_one_record_per_endpoint (servers : List ServerConfig)
    (env : CycleEnv) (messageId : Option String)
    (hins : ∀ r, env.insertOk r = true) :
    (monitorServers servers env messageId).1.records =
      servers.map (fun s => recordFor servers (checkServerStatus s (env.probe s))) ∧
    (monitorServers servers env messageId).1.records.length = servers.length ∧
    (monitorServers servers env messageId).1.publishCalls = 1 ∧
    (monitorServers servers env messageId).1.publishCalls ≤ 1 ∧
    (monitorServers servers env messageId).1.aborted = false ∧
    (∀ i : Nat, (monitorServers servers env messageId).1.records[i]? =
      servers[i]?.map fun s => recordFor servers (checkServerStatus s (env.probe s))) ∧
    (∀ s, pingServer (env.probe s).ping = none →
      (recordFor servers (checkServerStatus s (env.probe s))).status = "🔴 Down" ∧
      (recordFor servers (checkServerStatus s (env.probe s))).name = s.name) := by
  have hall : ((servers.map fun s => checkServerStatus s (env.probe s)).map
      (recordFor servers)).all env.insertOk = true :=
    List.all_eq_true.mpr fun r _ => hins r
  have hmon := monitorServers_all_ok servers env messageId hall
  have hrec : (monitorServers servers env messageId).1.records =
      servers.map fun s => recordFor servers (checkServerStatus s (env.probe s)) := by
    rw [hmon, List.map_map]
    rfl
  refine ⟨hrec, ?_, by rw [hmon], by rw [hmon], by rw [hmon], ?_, ?_⟩
  · rw [hrec, List.length_map]
  · intro i
    rw [hrec, List.getElem?_map]
  · intro s hping
    refine ⟨?_, rfl⟩
    show classify (pingServer (env.probe s).ping) (portOpen s (env.probe s)) = _
    rw [hping]
    exact classify_none _

/-- Witness for C2: with two endpoints, the first suffering a total probe
failure, the cycle still writes two rows, publishes once, completes, and
the first row is Down. -/
theorem cycle_one_record_per_endpoint_witness :
    (monitorServers demoServers demoGoodEnv none).1.records.length = 2 ∧
    (monitorServers demoServers demoGoodEnv none).1.publishCalls = 1 ∧
    (monitorServers demoServers demoGoodEnv none).1.aborted = false ∧
    (recordFor demoServers (checkServerStatus demoTcpServer
      (demoGoodEnv.probe demoTcpServer))).status = "🔴 Down" := by
  have h := cycle_one_record_per_endpoint demoServers demoGoodEnv none fun r => rfl
  exact ⟨h.2.1, h.2.2.1, h.2.2.2.2.1, (h.2.2.2.2.2.2 demoTcpServer rfl).1⟩

/-- Counterexample to claim C7: in a concrete cycle where the insert for
the first endpoint fails, both inserts are attempted and the second row is
written, but the remainder of the cycle is aborted — the reporter is never
invoked — rather than the failure being caught and logged at the
orchestration boundary. -/
theorem storage_failure_aborts_cycle :
    (monitorServers demoServers demoBadStorageEnv none).1.publishCalls = 0 ∧
    (monitorServers demoServers demoBadStorageEnv none).1.aborted = true ∧
    (monitorServers demoServers demoBadStorageEnv none).1.attempted.length = 2 ∧
    (monitorServers demoServers demoBadStorageEnv none).1.records.length = 1 :=
  ⟨rfl, rfl, rfl, rfl⟩

/-- Claim C7 amended: probe failures never abort a cycle, every insert is
attempted each cycle whatever the storage outcomes, and a failing insert
does not block the other writes (the rows written are exactly the
successful inserts); but a storage write failure is not caught at the
orchestration boundary: the cycle aborts exactly when some insert fails,
an aborted cycle makes no publish attempt and leaves the stored id
unchanged, and the unconditional interval timer still runs every
subsequent cycle. -/
theorem storage_failure_behavior (servers : List ServerConfig) (env : CycleEnv)
    (messageId : Option String) (envs : Nat → CycleEnv) (n : Nat) :
    (monitorServers servers env messageId).1.attempted.length = servers.length ∧
    (monitorServers servers env messageId).1.records =
      (monitorServers servers env messageId).1.attempted.filter env.insertOk ∧
    (monitorServers servers env messageId).1.aborted =
      !(monitorServers servers env messageId).1.attempted.all env.insertOk ∧
    (monitorServers servers env messageId).1.publishCalls =
      (if (monitorServers servers env messageId).1.attempted.all env.insertOk
        then 1 else 0) ∧
    (monitorServers servers env messageId).2 =
      (if (monitorServers servers env messageId).1.attempted.all env.insertOk
        then (sendDiscordNotification messageId env.publish).messageId
        else messageId) ∧
    (runCycles servers envs n).1.length = n := by
  rcases Bool.dichotomy (((servers.map fun s => checkServerStatus s (env.probe s)).map
      (recordFor servers)).all env.insertOk) with hall | hall
  · have hmon := monitorServers_insert_failed servers env messageId hall
    rw [hmon]
    refine ⟨by simp, rfl, by rw [hall]; rfl, by rw [hall]; rfl, by rw [hall]; rfl,
      runCycles_length servers envs n⟩
  · have hmon := monitorServers_all_ok servers env messageId hall
    rw [hmon]
    refine ⟨by simp, ?_, by rw [hall]; rfl, by rw [hall]; rfl, by rw [hall]; rfl,
      runCycles_length servers envs n⟩
    rw [List.filter_eq_self.mpr fun a ha => List.all_eq_true.mp hall a ha]

/-- Counterexample to claim C8: for a concrete TCP endpoint the port check
does not start before the latency probe has ended — the two sub-checks are
awaited one after the other, not run concurrently. -/
theorem subchecks_not_concurrent :
    occursBefore (checkServerStatusTrace demoTcpServer)
      (ProbeEvent.portStart Protocol.tcp) ProbeEvent.pingEnd = false := rfl

/-- Claim C8 amended: the two sub-checks of a probe run sequentially — the
port check starts only after the latency measurement has ended — and there
is no partial short-circuit: the port check runs and completes for every
input, the probe returns only after both sub-checks (the port end event is
last in the trace), and the returned result combines the latency value
with the classification of both sub-results. -/
theorem subchecks_sequential (server : ServerConfig) (env : ProbeEnv) :
    occursBefore (checkServerStatusTrace server) ProbeEvent.pingEnd
      (ProbeEvent.portStart server.protocol) = true ∧
    ProbeEvent.portEnd server.protocol ∈ checkServerStatusTrace server ∧
    (checkServerStatusTrace server).getLast? =
      some (ProbeEvent.portEnd server.protocol) ∧
    (checkServerStatus server env).ping = pingServer env.ping ∧
    (checkServerStatus server env).status =
      classify (pingServer env.ping) (portOpen server env) := by
  obtain ⟨nm, ip, pt, pr⟩ := server
  cases pr <;> exact ⟨rfl, by simp [checkServerStatusTrace], rfl, rfl, rfl⟩

/-- Counterexample to claim C9: in a concrete all-successful cycle the
publish is not invoked concurrently with the recorder writes — the trace
places the publish start strictly after every insert event, so no insert
is still in flight once the publish has started. -/
theorem reporting_waits_for_recording :
    cycleTrace demoServers demoGoodEnv =
      [CycleEvent.probeStart 0, CycleEvent.probeStart 1,
       CycleEvent.probeEnd 0, CycleEvent.probeEnd 1,
       CycleEvent.insertStart 0, CycleEvent.insertStart 1,
       CycleEvent.insertEnd 0, CycleEvent.insertEnd 1,
       CycleEvent.publishStart, CycleEvent.publishEnd] ∧
    occursBefore (cycleTrace demoServers demoGoodEnv) CycleEvent.publishStart
      (CycleEvent.insertEnd 0) = false ∧
    occursBefore (cycleTrace demoServers demoGoodEnv) CycleEvent.publishStart
      (CycleEvent.insertEnd 1) = false :=
  ⟨rfl, rfl, rfl⟩

/-- Claim C9 amended: within a cycle the recorder writes do run
concurrently with one another — every insert is started before any insert
ends — and recording never waits on reporting; but the single reporter
publish is not concurrent with the writes: whenever a publish happens at
all (that is, when every insert succeeds), it starts only after every
insert has ended. -/
theorem inserts_concurrent_publish_after (servers : List ServerConfig)
    (env : CycleEnv) :
    ((List.range servers.length).all fun i =>
      (List.range servers.length).all fun j =>
        occursBefore (cycleTrace servers env)
          (CycleEvent.insertStart i) (CycleEvent.insertEnd j)) = true ∧
    ((List.range servers.length).all fun i =>
      occursBefore (cycleTrace servers { env with insertOk := fun _ => true })
        (CycleEvent.insertEnd i) CycleEvent.publishStart) = true := by
  constructor
  · rw [List.all_eq_true]
    intro i hi
    rw [List.all_eq_true]
    intro j hj
    simp only [cycleTrace]
    exact occursBefore_quad_mid (List.mem_map.mpr ⟨i, hi, rfl⟩)
      (List.mem_map.mpr ⟨j, hj, rfl⟩)
  · rw [List.all_eq_true]
    intro i hi
    rw [cycleTrace_all_ok servers { env with insertOk := fun _ => true }
      fun r => rfl]
    exact occursBefore_quad_last (List.mem_map.mpr ⟨i, hi, rfl⟩)
      (List.mem_cons_self _ _)

end ServerChecker
